import Mathlib

/-!
Shallow embedding of the terraform-provider-atlassian-compass repository:
the GraphQL transport client (internal/client/client.go and the variant in
src/unnamed/part_000), the tenant resolver, the component resource mapper
(internal/provider/resource_component.go) and the component-link resource
mapper (src/unnamed/part_002).

Network effects are made explicit: each lifecycle function takes an
environment that supplies the decoded result of every ExecuteQuery round
trip (an `Except String _`, where `.error` stands for a transport failure
or an unmarshal failure), and returns the list of requests it issued in
order, paired with the `Except`-style outcome.  Terraform's ResourceData
is modelled as an explicit state record; `d.SetId("")` becomes clearing
the `rid` field.
-/

namespace Compass

/-- A network request issued through the transport client.  Each
constructor records the query that was sent and the variables the Go code
put into it. -/
inductive NetReq where
  | tenantContexts (hostName : String)
  | createComponent (cloudId cname ctype : String)
      (description ownerId : Option String)
  | getComponent (id : String)
  | updateComponent (id : String) (cname description : Option String)
      (ownerId : Option (Option String))
  | deleteComponent (id : String)
  | createComponentLink (componentId lname ltype url : String)
      (objectId : Option String)
  | getComponentLinks (componentId : String)
  deriving Repr, DecidableEq

/-- One entry of the `tenantContexts` GraphQL result (client.go, local
struct `TenantContext`). -/
structure TenantContext where
  cloudId : String
  deriving Repr, DecidableEq

/-- The `Component` struct of resource_component.go.  `ctype` embeds the
Go field `Type` (the enum string used in create) and `typeId` the field
`TypeID` (the identifier the API returns on read); `type` is a Lean
keyword, hence the rename. -/
structure Component where
  id : String
  cname : String
  description : String
  ctype : String
  typeId : String
  ownerId : String
  deriving Repr, DecidableEq

/-- The `ComponentLink` struct of the link mapper (src/unnamed/part_002). -/
structure ComponentLink where
  id : String
  lname : String
  ltype : String
  url : String
  objectId : String
  deriving Repr, DecidableEq

/-- Terraform state of one `compass_component` resource: `rid` is
`d.Id()`, the remaining fields are the schema attributes. -/
structure ComponentState where
  rid : String
  cloud_id : String
  cname : String
  description : String
  ctype : String
  owner_id : String
  deriving Repr, DecidableEq

/-- Terraform state of one `compass_component_link` resource. -/
structure LinkState where
  rid : String
  component_id : String
  cloud_id : String
  lname : String
  ltype : String
  url : String
  object_id : String
  deriving Repr, DecidableEq

/-- Provider-level configuration relevant to the mappers. -/
structure ProviderConfig where
  tenant : String
  deriving Repr, DecidableEq

/-- Decoded GraphQL response envelope (client.go struct
`GraphQLResponse`): the raw payload and the message of every entry of the
error list. -/
structure GraphQLEnvelope where
  payload : String
  errors : List String
  deriving Repr, DecidableEq

/-- Go's `fmt.Sprintf("%v", xs)` for a `[]string`: the elements separated
by single spaces, between square brackets. -/
def goFmtStringList (xs : List String) : String :=
  "[" ++ String.intercalate " " xs ++ "]"

/-- Tail of `ExecuteQuery` in internal/client/client.go, from the point
where the HTTP status and the response body are known: the status check,
the envelope decode (`none` models a body `json.Unmarshal` rejects), the
error-list check with `fmt.Errorf("GraphQL errors: %v", errMessages)`,
and the payload return. -/
def processGraphQLBody (status : Nat) (rawBody : String)
    (decoded : Option GraphQLEnvelope) : Except String String :=
  if status ≠ 200 then
    .error ("graphQL request failed with status " ++ toString status ++ ": " ++ rawBody)
  else
    match decoded with
    | none => .error "failed to unmarshal response"
    | some resp =>
      if resp.errors.isEmpty then .ok resp.payload
      else .error ("GraphQL errors: " ++ goFmtStringList resp.errors)

/-- A flag character of a Go fmt directive: `#`, `0`, `+`, `-` or space. -/
def isFlagChar (c : Char) : Bool :=
  c = '#' || c = '0' || c = '+' || c = '-' || c = ' '

/-- Parser state of the zero-operand Go formatter: outside a directive,
or inside one having consumed the flags, the width digits, a `*` width,
the `.`, the precision digits, or a `*` precision. -/
inductive FmtState where
  | literal
  | flags
  | width
  | afterWidth
  | dot
  | prec
  | afterPrec
  deriving Repr, DecidableEq

/-- What a Go format verb produces when no operand is supplied: `%%`
emits a literal percent (ignoring width and precision), every other
verb emits the missing-operand form. -/
def verbOut (c : Char) : String :=
  if c = '%' then "%" else "%!" ++ String.singleton c ++ "(MISSING)"

/-- One character step of Go's `fmt` directive scanner when zero
operands are supplied (the `fmt.Errorf(errMsg)` call of
src/unnamed/part_000 passes no operands): flags are consumed silently, a
`*` width or precision immediately emits its bad-operand marker, digits
extend width or precision, and any other character is the verb. -/
def fmtStep (st : FmtState) (c : Char) : FmtState × String :=
  match st with
  | .literal => if c = '%' then (.flags, "") else (.literal, String.singleton c)
  | .flags =>
    if isFlagChar c then (.flags, "")
    else if c = '*' then (.afterWidth, "%!(BADWIDTH)")
    else if c.isDigit then (.width, "")
    else if c = '.' then (.dot, "")
    else (.literal, verbOut c)
  | .width =>
    if c.isDigit then (.width, "")
    else if c = '.' then (.dot, "")
    else (.literal, verbOut c)
  | .afterWidth =>
    if c = '.' then (.dot, "")
    else (.literal, verbOut c)
  | .dot =>
    if c = '*' then (.afterPrec, "%!(BADPREC)")
    else if c.isDigit then (.prec, "")
    else (.literal, verbOut c)
  | .prec =>
    if c.isDigit then (.prec, "")
    else (.literal, verbOut c)
  | .afterPrec => (.literal, verbOut c)

/-- Run of the zero-operand formatter over the remaining characters; a
format string ending inside a directive emits the no-verb marker. -/
def goFormatNoArgsAux (st : FmtState) : List Char → String
  | [] => if st = FmtState.literal then "" else "%!(NOVERB)"
  | c :: cs =>
    let pr := fmtStep st c
    pr.2 ++ goFormatNoArgsAux pr.1 cs

/-- Go's formatting of a format string with zero operands, as performed
by the `fmt.Errorf(errMsg)` call in src/unnamed/part_000 (line 107): a
string free of `%` passes through unchanged, a directive with no operand
is rendered in Go's missing-operand notation (for example `"50%; "`
becomes `"50%!;(MISSING) "`), `%%` becomes `%`, and a trailing partial
directive becomes `%!(NOVERB)`.  Modelled fragment: flags, numeric and
`*` width and precision, and the verb; Go's explicit argument-index
syntax `%[n]` is outside the fragment, and nothing proved below about
strings containing `%` leaves the modelled fragment. -/
def goFormatNoArgs (s : String) : String :=
  goFormatNoArgsAux FmtState.literal s.data

/-- A string none of whose characters is `%`: Go's zero-operand
formatting is the identity exactly on these. -/
def percentFree (s : String) : Prop :=
  ∀ c ∈ s.data, c ≠ '%'

instance percentFreeDecidable (s : String) : Decidable (percentFree s) :=
  inferInstanceAs (Decidable (∀ c ∈ s.data, c ≠ '%'))

/-- Tail of `ExecuteQuery` in the client variant src/unnamed/part_000:
identical except that the error branch accumulates `msg ++ "; "` for
every entry onto the prefix `"GraphQL errors: "` and passes the
accumulated string to `fmt.Errorf` as a format string with no operands,
so it is additionally subject to Go's zero-operand formatting. -/
def processGraphQLBody000 (status : Nat) (rawBody : String)
    (decoded : Option GraphQLEnvelope) : Except String String :=
  if status ≠ 200 then
    .error ("graphQL request failed with status " ++ toString status ++ ": " ++ rawBody)
  else
    match decoded with
    | none => .error "failed to unmarshal response"
    | some resp =>
      if resp.errors.isEmpty then .ok resp.payload
      else .error (goFormatNoArgs
        (resp.errors.foldl (fun acc m => acc ++ m ++ "; ") "GraphQL errors: "))

/-- `strings.Contains(s, ".")` of Go, on the character level; `.` is
ASCII, so the byte-level scan of Go agrees with this on every valid
string. -/
def containsDot (s : String) : Bool :=
  s.data.contains '.'

/-- Hostname normalization at the top of `GetCloudIDByTenant`
(client.go): append ".atlassian.net" when the tenant is non-empty and
has no dot, otherwise pass it through. -/
def normalizeTenant (tenant : String) : String :=
  if tenant ≠ "" ∧ containsDot tenant = false then tenant ++ ".atlassian.net"
  else tenant

/-- `GetCloudIDByTenant` (client.go): normalize the tenant into a
hostname, issue one `tenantContexts` query for it (`tenantCtxs` is the
decoded result of that round trip), then fail when no context or an
empty cloud identifier comes back, and return the first context's cloud
identifier otherwise.  The second part of the result is the trace of
issued requests. -/
def getCloudIDByTenant (tenant : String)
    (tenantCtxs : Except String (List TenantContext)) :
    Except String String × List NetReq :=
  let hostName := normalizeTenant tenant
  let res : Except String String :=
    match tenantCtxs with
    | .error e => .error ("failed to get cloud ID: " ++ e)
    | .ok [] => .error ("tenant '" ++ hostName ++ "' not found or no access")
    | .ok (c :: _) =>
      if c.cloudId = "" then
        .error ("cloud ID not found for tenant '" ++ hostName ++ "'")
      else .ok c.cloudId
  (res, [NetReq.tenantContexts hostName])

/-- The cloud-id resolution block repeated at the top of the component
and link lifecycle functions: use the state's `cloud_id` when set,
otherwise require a configured tenant and resolve through
`GetCloudIDByTenant` (wrapping its failure as the Go code does). -/
def resolveCloudID (cfg : ProviderConfig)
    (tenantCtxs : Except String (List TenantContext)) (cloud_id : String) :
    Except String String × List NetReq :=
  if cloud_id ≠ "" then (.ok cloud_id, [])
  else if cfg.tenant = "" then
    (.error "cloud_id is required when tenant is not configured in provider", [])
  else
    let gr := getCloudIDByTenant cfg.tenant tenantCtxs
    match gr.1 with
    | .error e =>
      (.error ("failed to get cloud_id from tenant '" ++ cfg.tenant ++ "': " ++ e), gr.2)
    | .ok cid => (.ok cid, gr.2)

/-- The valid `CompassComponentType` enum values listed in
`resourceComponentCreate`. -/
def validTypes : List String :=
  ["SERVICE", "LIBRARY", "APPLICATION", "INFRASTRUCTURE", "DATABASE", "DOCUMENTATION"]

/-- The `diag.Errorf` message of the type-validation failure in
`resourceComponentCreate`. -/
def invalidTypeMsg (t : String) : String :=
  "invalid component type: " ++ t ++
    ". Valid values are: SERVICE, LIBRARY, APPLICATION, INFRASTRUCTURE, DATABASE, DOCUMENTATION"

/-- An optional GraphQL variable: the Go code includes the variable only
when the attribute is non-empty. -/
def optField (s : String) : Option String :=
  if s = "" then none else some s

/-- Decoded result of the `createComponent` mutation
(`CreateComponentResponse` in resource_component.go). -/
structure CreateComponentResult where
  success : Bool
  componentDetails : Component
  deriving Repr, DecidableEq

/-- Environment of one `resourceComponentCreate` call: the decoded
results of the (at most) three round trips it can make. -/
structure CreateEnv where
  tenantCtxs : Except String (List TenantContext)
  createResp : Except String CreateComponentResult
  readResp : Except String Component
  deriving Repr

/-- `resourceComponentRead` (resource_component.go): issue the
`GetComponent` query for `d.Id()`; on an empty record clear the local
identity (`d.SetId("")`) and succeed; otherwise repopulate name and
description, keep the state's `type` when non-empty (falling back to the
API's `typeId` only when the state has none), and overwrite `owner_id`
only when the API returned one.  The `d.Set("cloud_id", d.Get("cloud_id"))`
of the source is a state no-op and has no counterpart here. -/
def resourceComponentRead (st : ComponentState)
    (readResp : Except String Component) :
    Except String ComponentState × List NetReq :=
  let tr := [NetReq.getComponent st.rid]
  match readResp with
  | .error e => (.error ("failed to read component: " ++ e), tr)
  | .ok component =>
    if component.id = "" then
      (.ok { st with rid := "" }, tr)
    else
      let st1 := { st with cname := component.cname, description := component.description }
      let st2 :=
        if st1.ctype ≠ "" then st1
        else if component.typeId ≠ "" then { st1 with ctype := component.typeId }
        else st1
      let st3 :=
        if component.ownerId ≠ "" then { st2 with owner_id := component.ownerId } else st2
      (.ok st3, tr)

/-- `resourceComponentCreate` (resource_component.go): resolve the cloud
id (saving an auto-detected one into state), validate the `type` enum,
send the create mutation, check its success flag, adopt the returned
identifier, then run Read. -/
def resourceComponentCreate (cfg : ProviderConfig) (env : CreateEnv)
    (st : ComponentState) : Except String ComponentState × List NetReq :=
  let rc := resolveCloudID cfg env.tenantCtxs st.cloud_id
  let tr := rc.2
  match rc.1 with
  | .error e => (.error e, tr)
  | .ok cid =>
    let st := if st.cloud_id ≠ "" then st else { st with cloud_id := cid }
    if validTypes.contains st.ctype = false then
      (.error (invalidTypeMsg st.ctype), tr)
    else
      let req := NetReq.createComponent cid st.cname st.ctype
        (optField st.description) (optField st.owner_id)
      match env.createResp with
      | .error e => (.error ("failed to create component: " ++ e), tr ++ [req])
      | .ok resp =>
        if resp.success = false then
          (.error "failed to create component: GraphQL mutation returned success=false",
           tr ++ [req])
        else
          let st := { st with rid := resp.componentDetails.id }
          let rr := resourceComponentRead st env.readResp
          (rr.1, tr ++ [req] ++ rr.2)

/-- Environment of one `resourceComponentUpdate` call. -/
structure UpdateEnv where
  updateResp : Except String Bool
  readResp : Except String Component
  deriving Repr

/-- Body of `resourceComponentUpdate` after the immutable-field checks:
the no-op short-circuit to Read, otherwise the partial update input
(only changed fields; an `owner_id` cleared to empty is sent as explicit
null, modelled by `some none`), the mutation, the success check, and the
final Read. -/
def updateAfterImmutableChecks (env : UpdateEnv) (old new : ComponentState) :
    Except String ComponentState × List NetReq :=
  if old.cname = new.cname ∧ old.description = new.description ∧
      old.owner_id = new.owner_id then
    resourceComponentRead new env.readResp
  else
    let req := NetReq.updateComponent new.rid
      (if old.cname ≠ new.cname then some new.cname else none)
      (if old.description ≠ new.description then some new.description else none)
      (if old.owner_id ≠ new.owner_id then
         some (if new.owner_id ≠ "" then some new.owner_id else none)
       else none)
    match env.updateResp with
    | .error e => (.error ("failed to update component: " ++ e), [req])
    | .ok success =>
      if success = false then
        (.error "failed to update component: GraphQL mutation returned success=false", [req])
      else
        let rr := resourceComponentRead new env.readResp
        (rr.1, req :: rr.2)

/-- `resourceComponentUpdate` (resource_component.go): `old` holds the
prior state, `new` the incoming configuration (`d.Get` during update);
`d.HasChange(k)` is `old.k ≠ new.k`.  Any change to `cloud_id` or `type`
is rejected before any request is issued; otherwise the update body
runs. -/
def resourceComponentUpdate (env : UpdateEnv) (old new : ComponentState) :
    Except String ComponentState × List NetReq :=
  if old.cloud_id ≠ new.cloud_id then
    (.error "cloud_id cannot be changed. Please delete and recreate the component with the new cloud_id.", [])
  else if old.ctype ≠ new.ctype then
    (.error "type cannot be changed. Please delete and recreate the component with the new type.", [])
  else updateAfterImmutableChecks env old new

/-- `resourceComponentDelete` (resource_component.go): send the delete
mutation for `d.Id()`, check the success flag, then clear the local
identity unconditionally. -/
def resourceComponentDelete (st : ComponentState)
    (deleteResp : Except String Bool) :
    Except String ComponentState × List NetReq :=
  let tr := [NetReq.deleteComponent st.rid]
  match deleteResp with
  | .error e => (.error ("failed to delete component: " ++ e), tr)
  | .ok success =>
    if success = false then
      (.error "failed to delete component: GraphQL mutation returned success=false", tr)
    else (.ok { st with rid := "" }, tr)

/-- The valid link `type` values listed in `resourceComponentLinkCreate`
(src/unnamed/part_002). -/
def validLinkTypes : List String :=
  ["DOCUMENT", "CHAT_CHANNEL", "REPOSITORY", "PROJECT", "DASHBOARD", "ON_CALL", "OTHER_LINK"]

/-- The `diag.Errorf` message of the link-type validation failure. -/
def invalidLinkTypeMsg (t : String) : String :=
  "invalid link type: " ++ t ++
    ". Valid values are: DOCUMENT, CHAT_CHANNEL, REPOSITORY, PROJECT, DASHBOARD, ON_CALL, OTHER_LINK"

/-- The lookup loop of `resourceComponentLinkRead`: first link of the
component's list whose identifier equals the tracked one. -/
def findLinkByID (linkID : String) : List ComponentLink → Option ComponentLink
  | [] => none
  | l :: rest => if l.id = linkID then some l else findLinkByID linkID rest

/-- The disambiguation loop of `resourceComponentLinkCreate`: first link
matching the requested name, type and url, where a request without
object id matches only a link with empty `objectId` and a request with
one matches only a link with exactly that `objectId`; a name/type/url
match with the wrong object id does not stop the scan. -/
def findCreatedLink (lname ltype url objectID : String) :
    List ComponentLink → Option ComponentLink
  | [] => none
  | l :: rest =>
    if l.lname = lname ∧ l.ltype = ltype ∧ l.url = url ∧
        ((objectID = "" ∧ l.objectId = "") ∨ (objectID ≠ "" ∧ l.objectId = objectID)) then
      some l
    else findCreatedLink lname ltype url objectID rest

/-- Environment of one `resourceComponentLinkRead` call. -/
structure LinkReadEnv where
  tenantCtxs : Except String (List TenantContext)
  linksResp : Except String (List ComponentLink)
  deriving Repr

/-- `resourceComponentLinkRead` (src/unnamed/part_002): resolve the cloud
id (without saving it into state at this point), fetch the owning
component's link list, look the tracked link up by identifier; when it
is absent clear the local identity and succeed, when present repopulate
`cloud_id`, `name`, `type` and `url`, and overwrite `object_id` only
when the remote `objectId` is non-empty. -/
def resourceComponentLinkRead (cfg : ProviderConfig) (env : LinkReadEnv)
    (st : LinkState) : Except String LinkState × List NetReq :=
  let rc := resolveCloudID cfg env.tenantCtxs st.cloud_id
  let tr := rc.2
  match rc.1 with
  | .error e => (.error e, tr)
  | .ok cid =>
    let req := NetReq.getComponentLinks st.component_id
    match env.linksResp with
    | .error e => (.error ("failed to read component link: " ++ e), tr ++ [req])
    | .ok links =>
      match findLinkByID st.rid links with
      | none => (.ok { st with rid := "" }, tr ++ [req])
      | some l =>
        let st' := { st with
          cloud_id := cid
          lname := l.lname
          ltype := l.ltype
          url := l.url
          object_id := if l.objectId ≠ "" then l.objectId else st.object_id }
        (.ok st', tr ++ [req])

/-- Environment of one `resourceComponentLinkCreate` call: the tenant
query, the create mutation's success flag, the immediate read-back of
the owning component's link list, and the environment of the final Read. -/
structure LinkCreateEnv where
  tenantCtxs : Except String (List TenantContext)
  createResp : Except String Bool
  linksResp : Except String (List ComponentLink)
  readEnv : LinkReadEnv
  deriving Repr

/-- `resourceComponentLinkCreate` (src/unnamed/part_002): resolve the
cloud id (saving an auto-detected one into state), validate the link
`type`, send the create mutation (which returns only a success flag),
then immediately read the owning component's full link list, find the
just-created link with `findCreatedLink`, fail when it is absent, and on
a match adopt its identifier as the local identity and run Read. -/
def resourceComponentLinkCreate (cfg : ProviderConfig) (env : LinkCreateEnv)
    (st : LinkState) : Except String LinkState × List NetReq :=
  let rc := resolveCloudID cfg env.tenantCtxs st.cloud_id
  let tr := rc.2
  match rc.1 with
  | .error e => (.error e, tr)
  | .ok cid =>
    let st := if st.cloud_id ≠ "" then st else { st with cloud_id := cid }
    if validLinkTypes.contains st.ltype = false then
      (.error (invalidLinkTypeMsg st.ltype), tr)
    else
      let req := NetReq.createComponentLink st.component_id st.lname st.ltype st.url
        (optField st.object_id)
      match env.createResp with
      | .error e => (.error ("failed to create component link: " ++ e), tr ++ [req])
      | .ok success =>
        if success = false then
          (.error "failed to create component link: GraphQL mutation returned success=false",
           tr ++ [req])
        else
          let req2 := NetReq.getComponentLinks st.component_id
          match env.linksResp with
          | .error e =>
            (.error ("failed to read component links after creation: " ++ e),
             tr ++ [req, req2])
          | .ok links =>
            match findCreatedLink st.lname st.ltype st.url st.object_id links with
            | none =>
              (.error "failed to find created link in component. Created link may not be visible yet.",
               tr ++ [req, req2])
            | some l =>
              let rr := resourceComponentLinkRead cfg env.readEnv { st with rid := l.id }
              (rr.1, tr ++ [req, req2] ++ rr.2)

/-- A separator byte of the import identifier: `:` or `/`. -/
def sepChar (c : Char) : Bool :=
  c = ':' || c = '/'

/-- The backwards scan of `resourceComponentLinkImport`: split the
character list at its last `:` or `/`, returning the part before and the
part after the separator; `none` when no separator occurs.  Both
separators are ASCII, so Go's byte-level scan of a valid UTF-8 string
agrees with this character-level one. -/
def splitAtLastSep : List Char → Option (List Char × List Char)
  | [] => none
  | c :: cs =>
    match splitAtLastSep cs with
    | some (l, r) => some (c :: l, r)
    | none => if sepChar c then some ([], cs) else none

/-- The import-identifier split of `resourceComponentLinkImport`: prefix
before the last `:` or `/` and suffix after it. -/
def splitImportID (id : String) : Option (String × String) :=
  match splitAtLastSep id.data with
  | some (l, r) => some (String.mk l, String.mk r)
  | none => none

/-- The state seeded by import before delegating to Read:
`d.SetId(parts[1])` and `d.Set("component_id", parts[0])` on an
otherwise empty ResourceData. -/
def importSeed (component_id rid : String) : LinkState :=
  { rid := rid, component_id := component_id, cloud_id := "",
    lname := "", ltype := "", url := "", object_id := "" }

/-- `resourceComponentLinkImport` (src/unnamed/part_002): split the
identifier string at the last `:` or `/`, fail on a string without a
separator, otherwise seed the state and delegate to Read, wrapping a
Read failure. -/
def resourceComponentLinkImport (cfg : ProviderConfig) (env : LinkReadEnv)
    (id : String) : Except String LinkState × List NetReq :=
  match splitImportID id with
  | none =>
    (.error ("invalid import format. Expected component_id:link_id or component_id/link_id, got: " ++ id),
     [])
  | some (cid, lid) =>
    let rr := resourceComponentLinkRead cfg env (importSeed cid lid)
    match rr.1 with
    | .error e => (.error ("failed to read imported resource: " ++ e), rr.2)
    | .ok st => (.ok st, rr.2)

/-- The link-matching criterion as the specification states it: name,
type and url all equal the requested values, and the object id matches
in presence and value — a request with `object_id` unset matches only a
link with empty `objectId`, a request with it set matches only a link
with exactly that `objectId`. -/
def linkMatches (st : LinkState) (l : ComponentLink) : Prop :=
  l.lname = st.lname ∧ l.ltype = st.ltype ∧ l.url = st.url ∧
  (st.object_id = "" → l.objectId = "") ∧
  (st.object_id ≠ "" → l.objectId = st.object_id)

/-! ## Theorems -/

deriving instance DecidableEq for Except

lemma join_cons (x : String) (xs : List String) :
    String.join (x :: xs) = x ++ String.join xs := by
  apply String.ext
  simp

lemma foldl_append_semi (msgs : List String) (p : String) :
    msgs.foldl (fun acc m => acc ++ m ++ "; ") p =
      p ++ String.join (msgs.map (fun m => m ++ "; ")) := by
  induction msgs generalizing p with
  | nil =>
    apply String.ext
    simp [String.join]
  | cons m rest ih =>
    simp only [List.foldl_cons, List.map_cons, ih, join_cons]
    apply String.ext
    simp

lemma goFormatNoArgsAux_of_no_percent (cs : List Char)
    (h : ∀ c ∈ cs, c ≠ '%') :
    goFormatNoArgsAux FmtState.literal cs = String.mk cs := by
  induction cs with
  | nil => rfl
  | cons c rest ih =>
    have hc : c ≠ '%' := h c (List.mem_cons_self c rest)
    have hrest := ih (fun d hd => h d (List.mem_cons_of_mem c hd))
    simp only [goFormatNoArgsAux, fmtStep, hc, if_false, if_neg hc, hrest]
    apply String.ext
    simp [String.singleton]

lemma goFormatNoArgs_percentFree (s : String) (h : percentFree s) :
    goFormatNoArgs s = s := by
  unfold goFormatNoArgs
  rw [goFormatNoArgsAux_of_no_percent s.data h]

lemma percentFree_append (a b : String) (ha : percentFree a)
    (hb : percentFree b) : percentFree (a ++ b) := by
  intro c hc
  rw [show (a ++ b).data = a.data ++ b.data by simp] at hc
  rcases List.mem_append.mp hc with h | h
  · exact ha c h
  · exact hb c h

lemma percentFree_foldl (msgs : List String) (p : String)
    (hp : percentFree p) (hm : ∀ m ∈ msgs, percentFree m) :
    percentFree (msgs.foldl (fun acc m => acc ++ m ++ "; ") p) := by
  induction msgs generalizing p with
  | nil => simpa using hp
  | cons m rest ih =>
    simp only [List.foldl_cons]
    exact ih (p ++ m ++ "; ")
      (percentFree_append _ _
        (percentFree_append _ _ hp (hm m (List.mem_cons_self m rest))) (by decide))
      (fun x hx => hm x (List.mem_cons_of_mem m hx))

/-- C4 (counterexample): on a success status with a decoded envelope
holding the two error messages "a" and "b", the client.go version of
`ExecuteQuery` fails with the Go `%v` rendering "GraphQL errors: [a b]",
and neither it nor the part_000 version produces the messages joined
with "; "; moreover a message containing `%` is reinterpreted by the
part_000 client's zero-operand formatting rather than joined verbatim. -/
theorem gql_errors_join_counterexample :
    processGraphQLBody 200 "" (some { payload := "d", errors := ["a", "b"] }) =
      .error "GraphQL errors: [a b]" ∧
    processGraphQLBody 200 "" (some { payload := "d", errors := ["a", "b"] }) ≠
      .error ("GraphQL errors: " ++ String.intercalate "; " ["a", "b"]) ∧
    processGraphQLBody000 200 "" (some { payload := "d", errors := ["a", "b"] }) ≠
      .error ("GraphQL errors: " ++ String.intercalate "; " ["a", "b"]) ∧
    processGraphQLBody000 200 "" (some { payload := "d", errors := ["50%"] }) =
      .error "GraphQL errors: 50%!;(MISSING) " ∧
    processGraphQLBody000 200 "" (some { payload := "d", errors := ["50%"] }) ≠
      .error ("GraphQL errors: " ++ String.intercalate "; " ["50%"]) := by
  decide

/-- C4 (amended): on a success status whose body decodes to an envelope
with a non-empty error list, `ExecuteQuery` fails with a single error
aggregating all returned messages — rendered by client.go as the
bracketed space-separated Go `%v` list, and by the part_000 variant as
every message followed by "; " whenever no message contains `%` (a `%`
in a message is further reinterpreted by Go's zero-operand formatting,
since part_000 passes the accumulated string to `fmt.Errorf` as a
format string) — and the payload is never returned alongside an
error. -/
theorem gql_errors_aggregate :
    ∀ (status : Nat) (rawBody payload : String) (msgs : List String),
      status = 200 → msgs ≠ [] →
      processGraphQLBody status rawBody (some { payload := payload, errors := msgs }) =
        .error ("GraphQL errors: [" ++ String.intercalate " " msgs ++ "]") ∧
      ((∀ m ∈ msgs, percentFree m) →
        processGraphQLBody000 status rawBody (some { payload := payload, errors := msgs }) =
          .error ("GraphQL errors: " ++ String.join (msgs.map (fun m => m ++ "; ")))) ∧
      ∀ p, processGraphQLBody status rawBody (some { payload := payload, errors := msgs }) ≠ .ok p ∧
        processGraphQLBody000 status rawBody (some { payload := payload, errors := msgs }) ≠ .ok p := by
  intro status rawBody payload msgs hs hm
  subst hs
  cases msgs with
  | nil => exact absurd rfl hm
  | cons m rest =>
    refine ⟨?_, ?_, ?_⟩
    · simp only [processGraphQLBody, goFmtStringList]
      norm_num
      apply String.ext
      simp
    · intro hpf
      have hp0 : percentFree ("GraphQL errors: " ++ m ++ "; ") :=
        percentFree_append _ _
          (percentFree_append _ _ (by decide) (hpf m (List.mem_cons_self m rest)))
          (by decide)
      have hfree := percentFree_foldl rest ("GraphQL errors: " ++ m ++ "; ") hp0
        (fun x hx => hpf x (List.mem_cons_of_mem m hx))
      simp only [processGraphQLBody000]
      norm_num
      rw [goFormatNoArgs_percentFree _ hfree, foldl_append_semi]
      apply String.ext
      simp [join_cons]
    · intro p
      constructor
      · simp [processGraphQLBody]
      · simp [processGraphQLBody000]

/-- C4 (witness): the amended aggregation at a concrete envelope, for
both client variants. -/
theorem gql_errors_aggregate_witness :
    processGraphQLBody 200 "x" (some { payload := "d", errors := ["a"] }) =
      .error ("GraphQL errors: [" ++ String.intercalate " " ["a"] ++ "]") ∧
    processGraphQLBody000 200 "x" (some { payload := "d", errors := ["a"] }) =
      .error ("GraphQL errors: " ++ String.join (["a"].map (fun m => m ++ "; "))) :=
  ⟨(gql_errors_aggregate 200 "x" "d" ["a"] rfl (by decide)).1,
   (gql_errors_aggregate 200 "x" "d" ["a"] rfl (by decide)).2.1 (by decide)⟩

/-- C8 (counterexample): the empty tenant name contains no dot, yet the
resolver queries the empty hostname rather than the hostname formed by
appending ".atlassian.net". -/
theorem tenant_normalize_empty_counterexample :
    containsDot "" = false ∧
    (getCloudIDByTenant "" (.ok [{ cloudId := "cid-1" }])).2 =
      [NetReq.tenantContexts ""] ∧
    (getCloudIDByTenant "" (.ok [{ cloudId := "cid-1" }])).2 ≠
      [NetReq.tenantContexts ("" ++ ".atlassian.net")] := by
  decide

/-- C8 (amended): for every non-empty tenant name not containing a dot,
the resolver queries the hostname formed by appending ".atlassian.net";
for every tenant name already containing a dot, the name is passed
through as the hostname unchanged. -/
theorem tenant_normalize :
    ∀ (tenant : String) (ctxs : Except String (List TenantContext)),
      (tenant ≠ "" → containsDot tenant = false →
        (getCloudIDByTenant tenant ctxs).2 =
          [NetReq.tenantContexts (tenant ++ ".atlassian.net")]) ∧
      (containsDot tenant = true →
        (getCloudIDByTenant tenant ctxs).2 = [NetReq.tenantContexts tenant]) := by
  intro tenant ctxs
  constructor
  · intro h1 h2
    simp [getCloudIDByTenant, normalizeTenant, h1, h2]
  · intro h
    simp [getCloudIDByTenant, normalizeTenant, h]

/-- C8 (witness): the amended normalization at the tenants "acme" and
"acme.atlassian.net". -/
theorem tenant_normalize_witness :
    (getCloudIDByTenant "acme" (.ok [])).2 =
      [NetReq.tenantContexts ("acme" ++ ".atlassian.net")] ∧
    (getCloudIDByTenant "acme.atlassian.net" (.ok [])).2 =
      [NetReq.tenantContexts "acme.atlassian.net"] :=
  ⟨(tenant_normalize "acme" (.ok [])).1 (by decide) (by decide),
   (tenant_normalize "acme.atlassian.net" (.ok [])).2 (by decide)⟩

/-- C9: tenant resolution fails with the not-found error when zero
contexts come back, fails with the empty-identifier error when the first
context's cloud identifier is empty, and returns the first context's
cloud identifier otherwise. -/
theorem tenant_resolution_outcomes :
    ∀ (tenant : String) (c : TenantContext) (rest : List TenantContext),
      (getCloudIDByTenant tenant (.ok [])).1 =
        .error ("tenant '" ++ normalizeTenant tenant ++ "' not found or no access") ∧
      (c.cloudId = "" → (getCloudIDByTenant tenant (.ok (c :: rest))).1 =
        .error ("cloud ID not found for tenant '" ++ normalizeTenant tenant ++ "'")) ∧
      (c.cloudId ≠ "" → (getCloudIDByTenant tenant (.ok (c :: rest))).1 = .ok c.cloudId) := by
  intro tenant c rest
  refine ⟨by simp [getCloudIDByTenant], ?_, ?_⟩
  · intro h
    simp [getCloudIDByTenant, h]
  · intro h
    simp [getCloudIDByTenant, h]

/-- C9 (witness): the three resolution outcomes at concrete contexts. -/
theorem tenant_resolution_outcomes_witness :
    (getCloudIDByTenant "acme" (.ok [{ cloudId := "cid-1" }])).1 = .ok "cid-1" ∧
    (getCloudIDByTenant "acme" (.ok [{ cloudId := "" }])).1 =
      .error ("cloud ID not found for tenant '" ++ normalizeTenant "acme" ++ "'") :=
  ⟨(tenant_resolution_outcomes "acme" { cloudId := "cid-1" } []).2.2 (by decide),
   (tenant_resolution_outcomes "acme" { cloudId := "" } []).2.1 rfl⟩

/-- C6: a component update changing `cloud_id` or `type` fails with the
corresponding validation error and issues no request (so prior state is
left untouched), while an update keeping both passes this check and
proceeds to the regular update body. -/
theorem update_rejects_immutable_fields :
    ∀ (env : UpdateEnv) (old new : ComponentState),
      (old.cloud_id ≠ new.cloud_id →
        resourceComponentUpdate env old new =
          (.error "cloud_id cannot be changed. Please delete and recreate the component with the new cloud_id.", [])) ∧
      (old.cloud_id = new.cloud_id → old.ctype ≠ new.ctype →
        resourceComponentUpdate env old new =
          (.error "type cannot be changed. Please delete and recreate the component with the new type.", [])) ∧
      (old.cloud_id = new.cloud_id → old.ctype = new.ctype →
        resourceComponentUpdate env old new = updateAfterImmutableChecks env old new) := by
  intro env old new
  refine ⟨fun h1 => ?_, fun h1 h2 => ?_, fun h1 h2 => ?_⟩
  · simp [resourceComponentUpdate, h1]
  · simp [resourceComponentUpdate, h1, h2]
  · simp [resourceComponentUpdate, h1, h2]

/-- C6 (witness): a `cloud_id` change on concrete states is rejected
without a request. -/
theorem update_rejects_immutable_fields_witness :
    resourceComponentUpdate { updateResp := .ok true, readResp := .error "x" }
      { rid := "c1", cloud_id := "cl-1", cname := "n", description := "", ctype := "SERVICE", owner_id := "" }
      { rid := "c1", cloud_id := "cl-2", cname := "n", description := "", ctype := "SERVICE", owner_id := "" } =
      (.error "cloud_id cannot be changed. Please delete and recreate the component with the new cloud_id.", []) :=
  (update_rejects_immutable_fields { updateResp := .ok true, readResp := .error "x" }
    { rid := "c1", cloud_id := "cl-1", cname := "n", description := "", ctype := "SERVICE", owner_id := "" }
    { rid := "c1", cloud_id := "cl-2", cname := "n", description := "", ctype := "SERVICE", owner_id := "" }).1
    (by decide)

/-- C7: a component read that decodes to a record without identifier
clears the local identity and succeeds; a successful delete likewise
clears the identity; and reading again after the delete still yields
the cleared identity and success, not an error. -/
theorem read_absent_clears_identity :
    ∀ (st : ComponentState) (comp : Component), comp.id = "" →
      resourceComponentRead st (.ok comp) =
        (.ok { st with rid := "" }, [NetReq.getComponent st.rid]) ∧
      resourceComponentDelete st (.ok true) =
        (.ok { st with rid := "" }, [NetReq.deleteComponent st.rid]) ∧
      (resourceComponentRead { st with rid := "" } (.ok comp)).1 =
        .ok { st with rid := "" } := by
  intro st comp h
  refine ⟨?_, ?_, ?_⟩
  · simp [resourceComponentRead, h]
  · simp [resourceComponentDelete]
  · simp [resourceComponentRead, h]

/-- C7 (witness): clearing at a concrete state and empty record. -/
theorem read_absent_clears_identity_witness :
    resourceComponentRead
      { rid := "c1", cloud_id := "cl-1", cname := "n", description := "", ctype := "SERVICE", owner_id := "" }
      (.ok { id := "", cname := "", description := "", ctype := "", typeId := "", ownerId := "" }) =
      (.ok { rid := "", cloud_id := "cl-1", cname := "n", description := "", ctype := "SERVICE", owner_id := "" },
       [NetReq.getComponent "c1"]) :=
  (read_absent_clears_identity
    { rid := "c1", cloud_id := "cl-1", cname := "n", description := "", ctype := "SERVICE", owner_id := "" }
    { id := "", cname := "", description := "", ctype := "", typeId := "", ownerId := "" } rfl).1

lemma splitAtLastSep_eq_none (t : List Char) (h : ∀ d ∈ t, sepChar d = false) :
    splitAtLastSep t = none := by
  induction t with
  | nil => rfl
  | cons c cs ih =>
    have hc := h c (List.mem_cons_self c cs)
    have hcs := ih (fun d hd => h d (List.mem_cons_of_mem c hd))
    simp [splitAtLastSep, hcs, hc]

lemma splitAtLastSep_append (s t : List Char) (c : Char) (hc : sepChar c = true)
    (ht : ∀ d ∈ t, sepChar d = false) :
    splitAtLastSep (s ++ c :: t) = some (s, t) := by
  induction s with
  | nil => simp [splitAtLastSep, splitAtLastSep_eq_none t ht, hc]
  | cons a as ih => simp [splitAtLastSep, ih]

/-- C5: the import identifier is split at the last `:` or `/` scanning
from the end — the part before it becomes `component_id`, the part
after it the tracked identifier — "cmp-1:lnk-1" and "cmp-1/lnk-1" both
split into "cmp-1" and "lnk-1", and after the split import delegates to
Read on the seeded state (issuing exactly Read's requests and
propagating Read's outcome, wrapping its error). -/
theorem link_import_split :
    (∀ (s t : List Char) (c : Char), sepChar c = true →
      (∀ d ∈ t, sepChar d = false) →
      splitImportID (String.mk (s ++ c :: t)) = some (String.mk s, String.mk t)) ∧
    splitImportID "cmp-1:lnk-1" = some ("cmp-1", "lnk-1") ∧
    splitImportID "cmp-1/lnk-1" = some ("cmp-1", "lnk-1") ∧
    (∀ (cfg : ProviderConfig) (env : LinkReadEnv) (id cid lid : String),
      splitImportID id = some (cid, lid) →
      (resourceComponentLinkImport cfg env id).2 =
        (resourceComponentLinkRead cfg env (importSeed cid lid)).2 ∧
      (∀ st, (resourceComponentLinkRead cfg env (importSeed cid lid)).1 = .ok st →
        (resourceComponentLinkImport cfg env id).1 = .ok st) ∧
      (∀ e, (resourceComponentLinkRead cfg env (importSeed cid lid)).1 = .error e →
        (resourceComponentLinkImport cfg env id).1 =
          .error ("failed to read imported resource: " ++ e))) := by
  refine ⟨?_, by decide, by decide, ?_⟩
  · intro s t c hc ht
    simp [splitImportID, splitAtLastSep_append s t c hc ht]
  · intro cfg env id cid lid hsplit
    refine ⟨?_, ?_, ?_⟩
    · cases hr : (resourceComponentLinkRead cfg env (importSeed cid lid)).1 with
      | error e => simp [resourceComponentLinkImport, hsplit, hr]
      | ok st => simp [resourceComponentLinkImport, hsplit, hr]
    · intro st h
      simp [resourceComponentLinkImport, hsplit, h]
    · intro e h
      simp [resourceComponentLinkImport, hsplit, h]

/-- C5 (witness): the import of "cmp-1:lnk-1" issues exactly the
requests of Read seeded with component "cmp-1" and identifier "lnk-1". -/
theorem link_import_split_witness :
    (resourceComponentLinkImport { tenant := "acme" }
      { tenantCtxs := .ok [{ cloudId := "cid-1" }], linksResp := .ok [] } "cmp-1:lnk-1").2 =
      (resourceComponentLinkRead { tenant := "acme" }
        { tenantCtxs := .ok [{ cloudId := "cid-1" }], linksResp := .ok [] }
        (importSeed "cmp-1" "lnk-1")).2 :=
  (link_import_split.2.2.2 { tenant := "acme" }
    { tenantCtxs := .ok [{ cloudId := "cid-1" }], linksResp := .ok [] }
    "cmp-1:lnk-1" "cmp-1" "lnk-1" (by decide)).1

lemma getCloudIDByTenant_trace (tenant : String)
    (ctxs : Except String (List TenantContext)) :
    (getCloudIDByTenant tenant ctxs).2 =
      [NetReq.tenantContexts (normalizeTenant tenant)] := rfl

/-- C1 (counterexample): with `cloud_id` left to auto-detection and a
configured tenant, a create with the invalid type "BOGUS" still issues
the tenant-to-cloud-id resolution query, so the validation failure does
not precede every network call. -/
theorem create_invalid_type_counterexample :
    resourceComponentCreate { tenant := "acme" }
      { tenantCtxs := .ok [{ cloudId := "cid-1" }],
        createResp := .error "unused",
        readResp := .error "unused" }
      { rid := "", cloud_id := "", cname := "n", description := "",
        ctype := "BOGUS", owner_id := "" } =
      (.error (invalidTypeMsg "BOGUS"), [NetReq.tenantContexts "acme.atlassian.net"]) ∧
    [NetReq.tenantContexts "acme.atlassian.net"] ≠ ([] : List NetReq) := by
  decide

/-- C1 (amended): with a `type` outside the enumeration, create fails
with the type-validation error and never issues a create mutation; when
`cloud_id` is explicitly set no network call at all is made, but when
`cloud_id` must be auto-detected the tenant resolution query is issued
before validation fails (every request issued on this path is a tenant
query). -/
theorem create_invalid_type :
    ∀ (cfg : ProviderConfig) (env : CreateEnv) (st : ComponentState),
      validTypes.contains st.ctype = false →
      (st.cloud_id ≠ "" →
        resourceComponentCreate cfg env st = (.error (invalidTypeMsg st.ctype), [])) ∧
      (st.cloud_id = "" → cfg.tenant ≠ "" →
        ∀ cid, (getCloudIDByTenant cfg.tenant env.tenantCtxs).1 = .ok cid →
        resourceComponentCreate cfg env st =
          (.error (invalidTypeMsg st.ctype),
           [NetReq.tenantContexts (normalizeTenant cfg.tenant)])) ∧
      (∀ r ∈ (resourceComponentCreate cfg env st).2, ∃ h, r = NetReq.tenantContexts h) := by
  intro cfg env st hty
  have hnmem : st.ctype ∉ validTypes := by simpa using hty
  refine ⟨fun h1 => ?_, fun h1 h2 cid hcid => ?_, ?_⟩
  · simp [resourceComponentCreate, resolveCloudID, h1, hnmem]
  · simp [resourceComponentCreate, resolveCloudID, getCloudIDByTenant_trace, h1, h2,
      hcid, hnmem]
  · by_cases h1 : st.cloud_id = ""
    · by_cases h2 : cfg.tenant = ""
      · simp [resourceComponentCreate, resolveCloudID, h1, h2]
      · cases hg : (getCloudIDByTenant cfg.tenant env.tenantCtxs).1 with
        | error e =>
          simp [resourceComponentCreate, resolveCloudID, getCloudIDByTenant_trace, h1, h2, hg]
        | ok cid =>
          simp [resourceComponentCreate, resolveCloudID, getCloudIDByTenant_trace, h1, h2,
            hg, hnmem]
    · simp [resourceComponentCreate, resolveCloudID, h1, hnmem]

/-- C1 (witness): the amended behavior at a concrete state with
`cloud_id` explicitly set. -/
theorem create_invalid_type_witness :
    resourceComponentCreate { tenant := "" }
      { tenantCtxs := .error "unused", createResp := .error "unused",
        readResp := .error "unused" }
      { rid := "", cloud_id := "cl-1", cname := "n", description := "",
        ctype := "BOGUS", owner_id := "" } =
      (.error (invalidTypeMsg "BOGUS"), []) :=
  (create_invalid_type { tenant := "" }
    { tenantCtxs := .error "unused", createResp := .error "unused",
      readResp := .error "unused" }
    { rid := "", cloud_id := "cl-1", cname := "n", description := "",
      ctype := "BOGUS", owner_id := "" } (by decide)).1 (by decide)

lemma valid_ctype_ne_empty (t : String) (h : validTypes.contains t = true) :
    t ≠ "" := by
  intro he
  subst he
  revert h
  decide

lemma read_preserves_nonempty_ctype (st : ComponentState)
    (resp : Except String Component) (st' : ComponentState)
    (hne : st.ctype ≠ "") (h : (resourceComponentRead st resp).1 = .ok st') :
    st'.ctype = st.ctype := by
  cases resp with
  | error e => simp [resourceComponentRead] at h
  | ok comp =>
    by_cases hid : comp.id = ""
    · simp [resourceComponentRead, hid] at h
      rw [← h]
    · by_cases how : comp.ownerId = ""
      · simp [resourceComponentRead, hid, hne, how] at h
        rw [← h]
      · simp [resourceComponentRead, hid, hne, how] at h
        rw [← h]

/-- C3: a component read with a non-empty `type` in local state leaves
that `type` unchanged while `name` and `description` are repopulated
from the API record; consequently a create with a valid enumeration
value that ends in a successful state preserves the originally
specified `type`. -/
theorem read_preserves_type_enum :
    ∀ (st : ComponentState) (comp : Component), st.ctype ≠ "" → comp.id ≠ "" →
      (∃ st', (resourceComponentRead st (.ok comp)).1 = .ok st' ∧
        st'.ctype = st.ctype ∧ st'.cname = comp.cname ∧
        st'.description = comp.description) ∧
      (∀ (cfg : ProviderConfig) (env : CreateEnv) (st₀ st₁ : ComponentState),
        validTypes.contains st₀.ctype = true →
        (resourceComponentCreate cfg env st₀).1 = .ok st₁ →
        st₁.ctype = st₀.ctype) := by
  intro st comp hct hid
  constructor
  · by_cases how : comp.ownerId = ""
    · refine ⟨{ st with
          cname := comp.cname
          description := comp.description },
        ?_, rfl, rfl, rfl⟩
      simp [resourceComponentRead, hid, hct, how]
    · refine ⟨{ st with
          cname := comp.cname
          description := comp.description
          owner_id := comp.ownerId },
        ?_, rfl, rfl, rfl⟩
      simp [resourceComponentRead, hid, hct, how]
  · intro cfg env st₀ st₁ hvalid hok
    have hne := valid_ctype_ne_empty st₀.ctype hvalid
    have hmem : st₀.ctype ∈ validTypes := by simpa using hvalid
    by_cases hcl : st₀.cloud_id = ""
    · rcases hrc : (resolveCloudID cfg env.tenantCtxs "").1 with e | cid
      · simp [resourceComponentCreate, hcl, hrc] at hok
      · rcases hcr : env.createResp with e | resp
        · simp [resourceComponentCreate, hcl, hrc, hcr, hmem] at hok
        · cases hsucc : resp.success
          · simp [resourceComponentCreate, hcl, hrc, hcr, hmem, hsucc] at hok
          · simp [resourceComponentCreate, hcl, hrc, hcr, hmem, hsucc] at hok
            have := read_preserves_nonempty_ctype _ env.readResp st₁ (by simpa using hne) hok
            simpa using this
    · rcases hcr : env.createResp with e | resp
      · simp [resourceComponentCreate, resolveCloudID, hcl, hcr, hmem] at hok
      · cases hsucc : resp.success
        · simp [resourceComponentCreate, resolveCloudID, hcl, hcr, hmem, hsucc] at hok
        · simp [resourceComponentCreate, resolveCloudID, hcl, hcr, hmem, hsucc] at hok
          have := read_preserves_nonempty_ctype _ env.readResp st₁ (by simpa using hne) hok
          simpa using this

/-- C3 (witness): the preservation at a concrete state and record. -/
theorem read_preserves_type_enum_witness :
    ∃ st', (resourceComponentRead
      { rid := "c1", cloud_id := "cl-1", cname := "old", description := "old", ctype := "SERVICE", owner_id := "" }
      (.ok { id := "c1", cname := "n2", description := "d2", ctype := "", typeId := "uuid-1", ownerId := "" })).1 = .ok st' ∧
      st'.ctype = "SERVICE" ∧ st'.cname = "n2" ∧ st'.description = "d2" :=
  (read_preserves_type_enum
    { rid := "c1", cloud_id := "cl-1", cname := "old", description := "old", ctype := "SERVICE", owner_id := "" }
    { id := "c1", cname := "n2", description := "d2", ctype := "", typeId := "uuid-1", ownerId := "" }
    (by decide) (by decide)).1

lemma linkMatches_iff_cond (st : LinkState) (l : ComponentLink) :
    linkMatches st l ↔
      (l.lname = st.lname ∧ l.ltype = st.ltype ∧ l.url = st.url ∧
        ((st.object_id = "" ∧ l.objectId = "") ∨
         (st.object_id ≠ "" ∧ l.objectId = st.object_id))) := by
  unfold linkMatches
  by_cases h : st.object_id = "" <;> simp [h]

lemma findCreatedLink_eq_some (st : LinkState) (links : List ComponentLink)
    (l : ComponentLink)
    (h : findCreatedLink st.lname st.ltype st.url st.object_id links = some l) :
    l ∈ links ∧ linkMatches st l := by
  induction links with
  | nil => simp [findCreatedLink] at h
  | cons x rest ih =>
    by_cases hc : (x.lname = st.lname ∧ x.ltype = st.ltype ∧ x.url = st.url ∧
        ((st.object_id = "" ∧ x.objectId = "") ∨
         (st.object_id ≠ "" ∧ x.objectId = st.object_id)))
    · rw [findCreatedLink, if_pos hc] at h
      obtain rfl : x = l := by simpa using h
      exact ⟨List.mem_cons_self x rest, (linkMatches_iff_cond st x).mpr hc⟩
    · rw [findCreatedLink, if_neg hc] at h
      obtain ⟨hm, hl⟩ := ih h
      exact ⟨List.mem_cons_of_mem x hm, hl⟩

lemma findCreatedLink_eq_none_forall (st : LinkState) (links : List ComponentLink)
    (h : findCreatedLink st.lname st.ltype st.url st.object_id links = none) :
    ∀ l ∈ links, ¬ linkMatches st l := by
  induction links with
  | nil => simp
  | cons x rest ih =>
    by_cases hc : (x.lname = st.lname ∧ x.ltype = st.ltype ∧ x.url = st.url ∧
        ((st.object_id = "" ∧ x.objectId = "") ∨
         (st.object_id ≠ "" ∧ x.objectId = st.object_id)))
    · rw [findCreatedLink, if_pos hc] at h
      exact absurd h (by simp)
    · rw [findCreatedLink, if_neg hc] at h
      intro l hl
      rcases List.mem_cons.mp hl with rfl | hmem
      · exact fun hm => hc ((linkMatches_iff_cond st l).mp hm)
      · exact ih h l hmem

lemma findCreatedLink_none_of_forall (st : LinkState) (links : List ComponentLink)
    (h : ∀ l ∈ links, ¬ linkMatches st l) :
    findCreatedLink st.lname st.ltype st.url st.object_id links = none := by
  induction links with
  | nil => rfl
  | cons x rest ih =>
    have hx : ¬ (x.lname = st.lname ∧ x.ltype = st.ltype ∧ x.url = st.url ∧
        ((st.object_id = "" ∧ x.objectId = "") ∨
         (st.object_id ≠ "" ∧ x.objectId = st.object_id))) :=
      fun hc => h x (List.mem_cons_self x rest) ((linkMatches_iff_cond st x).mpr hc)
    rw [findCreatedLink, if_neg hx]
    exact ih (fun l hl => h l (List.mem_cons_of_mem x hl))

/-- C2: after a successful link-create mutation and the read-back of the
owning component's link list, the mapper fails with the find-error when
no listed link matches the request's name, type, url and
object-id-presence-and-value, and otherwise adopts the identifier of a
matching listed link and continues as Read on the state carrying that
identifier. -/
theorem link_create_matching :
    ∀ (cfg : ProviderConfig) (env : LinkCreateEnv) (st : LinkState)
      (links : List ComponentLink),
      st.cloud_id ≠ "" → validLinkTypes.contains st.ltype = true →
      env.createResp = .ok true → env.linksResp = .ok links →
      ((∀ l ∈ links, ¬ linkMatches st l) →
        resourceComponentLinkCreate cfg env st =
          (.error "failed to find created link in component. Created link may not be visible yet.",
           [NetReq.createComponentLink st.component_id st.lname st.ltype st.url (optField st.object_id),
            NetReq.getComponentLinks st.component_id])) ∧
      (∀ l₀ ∈ links, linkMatches st l₀ →
        ∃ l, l ∈ links ∧ linkMatches st l ∧
          resourceComponentLinkCreate cfg env st =
            ((resourceComponentLinkRead cfg env.readEnv { st with rid := l.id }).1,
             [NetReq.createComponentLink st.component_id st.lname st.ltype st.url (optField st.object_id),
              NetReq.getComponentLinks st.component_id] ++
              (resourceComponentLinkRead cfg env.readEnv { st with rid := l.id }).2)) := by
  intro cfg env st links hcl hty hcr hlr
  have htym : st.ltype ∈ validLinkTypes := by simpa using hty
  constructor
  · intro hnone
    have hf := findCreatedLink_none_of_forall st links hnone
    simp [resourceComponentLinkCreate, resolveCloudID, hcl, htym, hcr, hlr, hf]
  · intro l₀ hmem hmatch
    cases hf : findCreatedLink st.lname st.ltype st.url st.object_id links with
    | none => exact absurd hmatch (findCreatedLink_eq_none_forall st links hf l₀ hmem)
    | some l =>
      obtain ⟨hm, hlm⟩ := findCreatedLink_eq_some st links l hf
      refine ⟨l, hm, hlm, ?_⟩
      simp [resourceComponentLinkCreate, resolveCloudID, hcl, htym, hcr, hlr, hf]

/-- C2 (witness): the adoption at a concrete request whose component
carries a second link differing only in object-id presence. -/
theorem link_create_matching_witness :
    ∃ l, l ∈ [ { id := "lnk-9", lname := "docs", ltype := "DOCUMENT", url := "https://x", objectId := "obj-7" },
               ({ id := "lnk-1", lname := "docs", ltype := "DOCUMENT", url := "https://x", objectId := "" } : ComponentLink) ] ∧
      linkMatches { rid := "", component_id := "cmp-1", cloud_id := "cid-1", lname := "docs", ltype := "DOCUMENT", url := "https://x", object_id := "" } l ∧
      resourceComponentLinkCreate { tenant := "" }
        { tenantCtxs := .error "unused",
          createResp := .ok true,
          linksResp := .ok [ { id := "lnk-9", lname := "docs", ltype := "DOCUMENT", url := "https://x", objectId := "obj-7" },
                             { id := "lnk-1", lname := "docs", ltype := "DOCUMENT", url := "https://x", objectId := "" } ],
          readEnv := { tenantCtxs := .error "unused", linksResp := .ok [] } }
        { rid := "", component_id := "cmp-1", cloud_id := "cid-1", lname := "docs", ltype := "DOCUMENT", url := "https://x", object_id := "" } =
        ((resourceComponentLinkRead { tenant := "" }
            { tenantCtxs := .error "unused", linksResp := .ok [] }
            { rid := l.id, component_id := "cmp-1", cloud_id := "cid-1", lname := "docs", ltype := "DOCUMENT", url := "https://x", object_id := "" }).1,
         [NetReq.createComponentLink "cmp-1" "docs" "DOCUMENT" "https://x" (optField ""),
          NetReq.getComponentLinks "cmp-1"] ++
          (resourceComponentLinkRead { tenant := "" }
            { tenantCtxs := .error "unused", linksResp := .ok [] }
            { rid := l.id, component_id := "cmp-1", cloud_id := "cid-1", lname := "docs", ltype := "DOCUMENT", url := "https://x", object_id := "" }).2) :=
  (link_create_matching { tenant := "" }
    { tenantCtxs := .error "unused",
      createResp := .ok true,
      linksResp := .ok [ { id := "lnk-9", lname := "docs", ltype := "DOCUMENT", url := "https://x", objectId := "obj-7" },
                         { id := "lnk-1", lname := "docs", ltype := "DOCUMENT", url := "https://x", objectId := "" } ],
      readEnv := { tenantCtxs := .error "unused", linksResp := .ok [] } }
    { rid := "", component_id := "cmp-1", cloud_id := "cid-1", lname := "docs", ltype := "DOCUMENT", url := "https://x", object_id := "" }
    [ { id := "lnk-9", lname := "docs", ltype := "DOCUMENT", url := "https://x", objectId := "obj-7" },
      { id := "lnk-1", lname := "docs", ltype := "DOCUMENT", url := "https://x", objectId := "" } ]
    (by decide) (by decide) rfl rfl).2
    { id := "lnk-1", lname := "docs", ltype := "DOCUMENT", url := "https://x", objectId := "" }
    (by simp) (by simp [linkMatches])

/-- C10: a link read that finds the tracked link in the owning
component's list repopulates name, type and url from the listed link,
keeps the resolved cloud id and component id, and overwrites `object_id`
only when the remote `objectId` is non-empty — an empty remote
`objectId` leaves the previously stored local value unchanged. -/
theorem link_read_object_id_frame :
    ∀ (cfg : ProviderConfig) (env : LinkReadEnv) (st : LinkState)
      (links : List ComponentLink) (l : ComponentLink),
      st.cloud_id ≠ "" → env.linksResp = .ok links →
      findLinkByID st.rid links = some l →
      ∃ st', resourceComponentLinkRead cfg env st =
          (.ok st', [NetReq.getComponentLinks st.component_id]) ∧
        st'.lname = l.lname ∧ st'.ltype = l.ltype ∧ st'.url = l.url ∧
        st'.cloud_id = st.cloud_id ∧ st'.component_id = st.component_id ∧
        (l.objectId = "" → st'.object_id = st.object_id) ∧
        (l.objectId ≠ "" → st'.object_id = l.objectId) := by
  intro cfg env st links l hcl hresp hfind
  refine ⟨{ st with
      cloud_id := st.cloud_id
      lname := l.lname
      ltype := l.ltype
      url := l.url
      object_id := if l.objectId ≠ "" then l.objectId else st.object_id },
    ?_, rfl, rfl, rfl, rfl, rfl, ?_, ?_⟩
  · simp [resourceComponentLinkRead, resolveCloudID, hcl, hresp, hfind]
  · intro h
    simp [h]
  · intro h
    simp [h]

/-- C10 (witness): a link whose remote `objectId` is empty leaves the
stored `object_id` in place at a concrete state. -/
theorem link_read_object_id_frame_witness :
    ∃ st', resourceComponentLinkRead { tenant := "" }
        { tenantCtxs := .error "unused",
          linksResp := .ok [ { id := "lnk-1", lname := "docs", ltype := "DOCUMENT", url := "https://x", objectId := "" } ] }
        { rid := "lnk-1", component_id := "cmp-1", cloud_id := "cid-1", lname := "old", ltype := "OTHER_LINK", url := "https://old", object_id := "obj-kept" } =
        (.ok st', [NetReq.getComponentLinks "cmp-1"]) ∧
      st'.lname = "docs" ∧ st'.ltype = "DOCUMENT" ∧ st'.url = "https://x" ∧
      st'.cloud_id = "cid-1" ∧ st'.component_id = "cmp-1" ∧
      st'.object_id = "obj-kept" := by
  obtain ⟨st', h1, h2, h3, h4, h5, h6, h7, h8⟩ :=
    link_read_object_id_frame { tenant := "" }
      { tenantCtxs := .error "unused",
        linksResp := .ok [ { id := "lnk-1", lname := "docs", ltype := "DOCUMENT", url := "https://x", objectId := "" } ] }
      { rid := "lnk-1", component_id := "cmp-1", cloud_id := "cid-1", lname := "old", ltype := "OTHER_LINK", url := "https://old", object_id := "obj-kept" }
      [ { id := "lnk-1", lname := "docs", ltype := "DOCUMENT", url := "https://x", objectId := "" } ]
      { id := "lnk-1", lname := "docs", ltype := "DOCUMENT", url := "https://x", objectId := "" }
      (by decide) rfl (by decide)
  exact ⟨st', h1, h2, h3, h4, h5, h6, h7 rfl⟩

end Compass
